import Mathlib

/-!
Shallow embedding of the amazon-price-tracker repository (Python sources under
`src/`), used to check the natural-language specification against the code.

Conventions of the embedding:
* Python floats are modelled as rationals (`ℚ`); the decimal strings and the
  arithmetic involved in the claims are exact in `ℚ`.
* Python dictionaries that carry heterogeneous JSON values are modelled by the
  inductive `PValue`; `None` is `PValue.null` or `Option.none` depending on the
  field.
* Functions that the Python code lets raise exceptions are modelled with
  `Except String`; a total Lean function models a Python function that cannot
  raise (its body catches every exception).
* Page/DOM inputs are modelled as structures recording exactly the observations
  the corresponding Python function makes of the `BeautifulSoup` object
  (element presence, string contents), so each classifier is a function of
  those observations.
-/

namespace AmazonTracker

/-- ASCII apostrophe, built from its code point so the character never appears
in the file. Several CAPTCHA indicator strings in the source contain it. -/
def apos : Char := Char.ofNat 39

/-- `strContains h n`: does `h` contain `n` as a contiguous substring?
Models the Python `n in h` membership test on `str`. -/
def strContains (h n : String) : Bool := decide (n.data <:+: h.data)

/-- Lower-case every character. Models Python `str.lower()` on the ASCII
strings used by the source. -/
def lowerStr (s : String) : String := String.mk (s.data.map Char.toLower)

/-- `strEndsWith h suffix`: models Python `str.endswith`. -/
def strEndsWith (h n : String) : Bool := decide (n.data <:+ h.data)

/-- `strStartsWith h prefix`: models Python `str.startswith`. -/
def strStartsWith (h n : String) : Bool := decide (n.data <+: h.data)

/-!
## Numeric price parsing (`src/trackers/base.py`, `PriceTracker._extract_price`)

The Python code is:
```
if not price_str: return 0.0
price_str = re.sub(r'[^\d.]', '', price_str)
try: return float(price_str)
except (ValueError, TypeError): return 0.0
```
After the `re.sub`, the string consists only of ASCII digits and dots, so the
`float(...)` call succeeds exactly when the string contains at least one digit
and at most one dot (Python's float grammar `digits [ . digits ]` with at
least one digit somewhere); `parseDecimal` reproduces that grammar and the
resulting value exactly (in `ℚ`).
-/

/-- Numeric value of a list of ASCII digit characters, most significant first. -/
def natOfDigits (cs : List Char) : Nat :=
  cs.foldl (fun a c => 10 * a + (c.toNat - 48)) 0

/-- Python `float(s)` on a string `s` made only of digits and dots, split into
a decimal mantissa and scale (the value is `mantissa / 10 ^ scale`):
`some parts` when `s` is a valid float literal (at most one dot, at least one
digit), `none` when `float` raises `ValueError`. -/
def parseDecimalParts (cs : List Char) : Option (Nat × Nat) :=
  if cs.any (· = '.') then
    let intDs := cs.takeWhile (· ≠ '.')
    let rest := cs.dropWhile (· ≠ '.')
    let fracDs := rest.drop 1
    if fracDs.any (· = '.') then none
    else if intDs.isEmpty ∧ fracDs.isEmpty then none
    else some (natOfDigits intDs * 10 ^ fracDs.length + natOfDigits fracDs, fracDs.length)
  else if cs.isEmpty then none
  else some (natOfDigits cs, 0)

/-- The rational value of `parseDecimalParts`. -/
def parseDecimal (cs : List Char) : Option ℚ :=
  (parseDecimalParts cs).map (fun ms => (ms.1 : ℚ) / (10 ^ ms.2 : ℚ))

/-- `PriceTracker._extract_price` from `src/trackers/base.py`: keep digits and
dots, parse as a float, return `0.0` on any failure. -/
def extract_price (s : String) : ℚ :=
  if s = "" then 0
  else
    let stripped := s.data.filter (fun c => c.isDigit || c = '.')
    match parseDecimal stripped with
    | some q => q
    | none => 0

/-!
## Data model (`src/product_manager.py`)
-/

/-- `StoreType` enum from `src/product_manager.py`. -/
inductive StoreType where
  | amazon
  | flipkart
deriving DecidableEq, Repr

/-- `StoreType(value)` conversion: string to enum member. -/
def StoreType.ofString : String → Option StoreType
  | "amazon" => some .amazon
  | "flipkart" => some .flipkart
  | _ => none

/-- `.value` of a `StoreType` member. -/
def StoreType.value : StoreType → String
  | .amazon => "amazon"
  | .flipkart => "flipkart"

/-- A JSON-like value as stored in the products file; `dictV` carries the
flat string-to-string payload used by legacy coupon dictionaries. -/
inductive PValue where
  | str (s : String)
  | num (q : ℚ)
  | boolV (b : Bool)
  | dictV (kv : List (String × String))
  | null
deriving DecidableEq, Repr

/-- The `Product` dataclass from `src/product_manager.py`. The `coupon` field
is declared `Optional[str]` but Python never enforces that, and the legacy
migration in `_dict_to_product` exists precisely because old files stored a
dict there; the field is therefore modelled as an arbitrary JSON value. -/
structure Product where
  url : String
  target_price : ℚ
  title : Option String := none
  current_price : Option ℚ := none
  coupon : Option PValue := none
  coupon_info : Option (List (String × String)) := none
  final_price : Option ℚ := none
  in_stock : Option Bool := none
  id : Option String := none
  tag : Option String := none
  store_type : StoreType := .amazon
  last_updated : Option String := none
deriving DecidableEq, Repr

/-!
## Product (de)serialization (`src/product_manager.py`)

`Product.to_dict` and `ProductManager._dict_to_product` translate between the
dataclass and the JSON dictionary stored in `products.json`. Dictionaries are
modelled as association lists with Python-dict semantics: lookup by key,
assignment replaces an existing key in place or appends a new one.
-/

/-- A Python dict holding JSON values (as loaded from `products.json`). -/
def Dict' : Type := List (String × PValue)

/-- Python `data[k]` lookup (`None` result distinguished from a missing key). -/
def lookup : List (String × PValue) → String → Option PValue
  | [], _ => none
  | (k', v) :: rest, k => if k' = k then some v else lookup rest k

/-- Python `data[k] = v`: replace in place if the key exists, else append. -/
def setKey : List (String × PValue) → String → PValue → List (String × PValue)
  | [], k, v => [(k, v)]
  | (k', v') :: rest, k, v =>
    if k' = k then (k, v) :: rest else (k', v') :: setKey rest k v

/-- Encoding of an `Optional[str]` field by `dataclasses.asdict`/JSON. -/
def encOptStr : Option String → PValue
  | none => .null
  | some s => .str s

/-- Encoding of an `Optional[float]` field. -/
def encOptNum : Option ℚ → PValue
  | none => .null
  | some q => .num q

/-- Encoding of an `Optional[bool]` field. -/
def encOptBool : Option Bool → PValue
  | none => .null
  | some b => .boolV b

/-- Encoding of the dynamically typed `coupon` field. -/
def encCoupon : Option PValue → PValue
  | none => .null
  | some v => v

/-- Encoding of the `Optional[Dict]` field `coupon_info`. -/
def encCouponInfo : Option (List (String × String)) → PValue
  | none => .null
  | some kv => .dictV kv

/-- `Product.to_dict` from `src/product_manager.py`: `asdict(self)` over the
dataclass fields in declaration order, with `store_type` replaced by its
enum value string. -/
def toDict (p : Product) : List (String × PValue) :=
  [ ("url", .str p.url),
    ("target_price", .num p.target_price),
    ("title", encOptStr p.title),
    ("current_price", encOptNum p.current_price),
    ("coupon", encCoupon p.coupon),
    ("coupon_info", encCouponInfo p.coupon_info),
    ("final_price", encOptNum p.final_price),
    ("in_stock", encOptBool p.in_stock),
    ("id", encOptStr p.id),
    ("tag", encOptStr p.tag),
    ("store_type", .str p.store_type.value),
    ("last_updated", encOptStr p.last_updated) ]

/-- The field names of the `Product` dataclass
(`{field.name for field in fields(Product)}`). -/
def validFields : List String :=
  ["url", "target_price", "title", "current_price", "coupon", "coupon_info",
   "final_price", "in_stock", "id", "tag", "store_type", "last_updated"]

/-- The `k in valid_fields` test of the cleaning step. -/
def validKey (k : String) : Bool := validFields.contains k

/-- Exception-propagating bind on `Except String`, used to write the decoder
without monadic sugar. -/
def bindE : Except String α → (α → Except String β) → Except String β
  | .ok a, f => f a
  | .error e, _ => .error e

/-- Decode an `Optional[str]` slot. A non-string, non-null value would be
accepted silently by the dynamically typed dataclass; such values cannot occur
in the JSON produced by `to_dict`, and the typed model reports them as errors. -/
def decOptStr : Option PValue → Except String (Option String)
  | none => .ok none
  | some .null => .ok none
  | some (.str s) => .ok (some s)
  | some _ => .error "expected string or null"

/-- Decode an `Optional[float]` slot (same typing note as `decOptStr`). -/
def decOptNum : Option PValue → Except String (Option ℚ)
  | none => .ok none
  | some .null => .ok none
  | some (.num q) => .ok (some q)
  | some _ => .error "expected number or null"

/-- Decode an `Optional[bool]` slot (same typing note as `decOptStr`). -/
def decOptBool : Option PValue → Except String (Option Bool)
  | none => .ok none
  | some .null => .ok none
  | some (.boolV b) => .ok (some b)
  | some _ => .error "expected bool or null"

/-- Decode the `Optional[Dict]` slot `coupon_info`. -/
def decOptDict : Option PValue → Except String (Option (List (String × String)))
  | none => .ok none
  | some .null => .ok none
  | some (.dictV kv) => .ok (some kv)
  | some _ => .error "expected dict or null"

/-- Decode the dynamically typed `coupon` slot: any value passes through,
`None`/missing become `none`. -/
def decCoupon : Option PValue → Option PValue
  | none => none
  | some .null => none
  | some v => some v

/-- The `store_type` branch of `_dict_to_product`: a string is converted with
`StoreType(...)`, falling back to `AMAZON` when invalid; a missing key
defaults to `AMAZON` (a non-string value would be kept as-is by the dynamic
code, which the typed model cannot represent and reports as an error; such a
value never occurs in `to_dict` output). -/
def decStoreType : Option PValue → Except String StoreType
  | none => .ok .amazon
  | some (.str s) => .ok ((StoreType.ofString s).getD .amazon)
  | some _ => .error "store_type: non-string value"

/-- The legacy-coupon migration step of `_dict_to_product`: if `coupon` holds
a dict, move it into `coupon_info` (unless `coupon_info` is already present
and non-null) and clear `coupon`. -/
def migrateCoupon (data : List (String × PValue)) : List (String × PValue) :=
  match lookup data "coupon" with
  | some (.dictV kv) =>
    let d1 :=
      match lookup data "coupon_info" with
      | none => setKey data "coupon_info" (.dictV kv)
      | some .null => setKey data "coupon_info" (.dictV kv)
      | some _ => data
    setKey d1 "coupon" .null
  | _ => data

/-- Required-string slot (`url`): a missing key makes `Product(**cleaned)`
raise `TypeError`. -/
def decReqStr (fieldName : String) : Option PValue → Except String String
  | some (.str s) => .ok s
  | none => .error (fieldName ++ ": missing required field")
  | some _ => .error (fieldName ++ ": expected string")

/-- Required-number slot (`target_price`). -/
def decReqNum (fieldName : String) : Option PValue → Except String ℚ
  | some (.num q) => .ok q
  | none => .error (fieldName ++ ": missing required field")
  | some _ => .error (fieldName ++ ": expected number")

/-- `ProductManager._dict_to_product` from `src/product_manager.py`:
store-type conversion, legacy coupon migration, removal of unknown fields,
then `Product(**cleaned_data)`. -/
def dictToProduct (data : List (String × PValue)) : Except String Product :=
  let cleaned := (migrateCoupon data).filter (fun e => validKey e.1)
  bindE (decStoreType (lookup cleaned "store_type")) fun st =>
  bindE (decReqStr "url" (lookup cleaned "url")) fun url =>
  bindE (decReqNum "target_price" (lookup cleaned "target_price")) fun tp =>
  bindE (decOptStr (lookup cleaned "title")) fun title =>
  bindE (decOptNum (lookup cleaned "current_price")) fun cp =>
  bindE (decOptDict (lookup cleaned "coupon_info")) fun ci =>
  bindE (decOptNum (lookup cleaned "final_price")) fun fp =>
  bindE (decOptBool (lookup cleaned "in_stock")) fun ins =>
  bindE (decOptStr (lookup cleaned "id")) fun id =>
  bindE (decOptStr (lookup cleaned "tag")) fun tag =>
  bindE (decOptStr (lookup cleaned "last_updated")) fun lu =>
  .ok { url := url, target_price := tp, title := title, current_price := cp,
        coupon := decCoupon (lookup cleaned "coupon"), coupon_info := ci,
        final_price := fp, in_stock := ins, id := id, tag := tag,
        store_type := st, last_updated := lu }

/-- A `Product` is well-formed when its `coupon` field is not the `None`
sentinel wrapped in `some` and not a legacy dict (the declared type of the
field is `Optional[str]`). -/
def wellFormedProduct (p : Product) : Prop :=
  match p.coupon with
  | some .null => False
  | some (.dictV _) => False
  | _ => True

instance (p : Product) : Decidable (wellFormedProduct p) := by
  unfold wellFormedProduct
  match p.coupon with
  | some .null => exact inferInstanceAs (Decidable False)
  | some (.dictV _) => exact inferInstanceAs (Decidable False)
  | none => exact inferInstanceAs (Decidable True)
  | some (.str _) => exact inferInstanceAs (Decidable True)
  | some (.num _) => exact inferInstanceAs (Decidable True)
  | some (.boolV _) => exact inferInstanceAs (Decidable True)


/-!
## URL validation and canonical-identifier extraction
(`src/trackers/amazon_tracker.py`, `is_valid_url`, `_extract_asin`,
`normalize_url`)

`urllib.parse.urlparse` is modelled at the character level: the text before
the first `"://"` is the scheme, the netloc runs to the next `/`, `?` or `#`,
and the path is the remainder up to `?` or `#` (the `;params` split, which no
Amazon URL uses, is not modelled).
-/

/-- Characters after the first `"://"`, if any. -/
def afterScheme : List Char → Option (List Char)
  | [] => none
  | ':' :: '/' :: '/' :: rest => some rest
  | _ :: rest => afterScheme rest

/-- `urlparse(url).netloc`. -/
def netlocOf (url : String) : String :=
  match afterScheme url.data with
  | none => ""
  | some rest => String.mk (rest.takeWhile (fun c => c ≠ '/' ∧ c ≠ '?' ∧ c ≠ '#'))

/-- `urlparse(url).path`. -/
def pathOf (url : String) : String :=
  match afterScheme url.data with
  | none => String.mk (url.data.takeWhile (fun c => c ≠ '?' ∧ c ≠ '#'))
  | some rest =>
    let afterNetloc := rest.dropWhile (fun c => c ≠ '/' ∧ c ≠ '?' ∧ c ≠ '#')
    String.mk (afterNetloc.takeWhile (fun c => c ≠ '?' ∧ c ≠ '#'))

/-- `AmazonPriceTracker.AMAZON_DOMAINS`. -/
def AMAZON_DOMAINS : List String :=
  ["amazon.com", "www.amazon.com", "amazon.in", "www.amazon.in",
   "amzn.com", "www.amzn.com", "amzn.in", "www.amzn.in"]

/-- The domain test of `is_valid_url`: some allow-listed domain occurs in the
lower-cased netloc, or the netloc mentions `amzn.in`/`amzn.com`. -/
def domainAllowed (domain : String) : Bool :=
  AMAZON_DOMAINS.any (fun d => strContains domain d)
    || strContains domain "amzn.in" || strContains domain "amzn.com"

/-- The short-URL branch of `is_valid_url`: the netloc is exactly `amzn.in`
or `amzn.com` and the (case-sensitive) path starts with `/d/`, `/dp/` or
`/gp/`. -/
def shortUrlAccepted (domain rawPath : String) : Bool :=
  (domain = "amzn.in" || domain = "amzn.com")
    && (strStartsWith rawPath "/d/" || strStartsWith rawPath "/dp/"
        || strStartsWith rawPath "/gp/")

/-- Product-shaped path test of `is_valid_url` (on the lower-cased path). -/
def isProductPath (path : String) : Bool :=
  ["/dp/", "/gp/product/", "/d/", "/product/"].any (fun x => strContains path x)

/-- Excluded-path test of `is_valid_url` (on the lower-cased path). -/
def isExcludedPath (path : String) : Bool :=
  ["/cart", "/wishlist", "/account/login", "/account/register", "/checkout"]
    |>.any (fun x => strEndsWith path x)

/-- `AmazonPriceTracker.is_valid_url` from `src/trackers/amazon_tracker.py`. -/
def is_valid_url (url : String) : Bool :=
  if url = "" then false
  else
    let domain := lowerStr (netlocOf url)
    let rawPath := pathOf url
    if !domainAllowed domain then false
    else if shortUrlAccepted domain rawPath then true
    else
      let path := lowerStr rawPath
      isProductPath path && !isExcludedPath path

/-- `[A-Z0-9]`, the ASIN character class. -/
def isAsinChar (c : Char) : Bool := ('A' ≤ c && c ≤ 'Z') || c.isDigit

/-- Try to match `pref ++ [A-Z0-9]{10} ++ (term | end-of-string)` at the head
of `s`; on success return the ten identifier characters. -/
def matchAsinAt (pref : List Char) (term : Char) (s : List Char) : Option String :=
  if pref.isPrefixOf s then
    let rest := s.drop pref.length
    let asin := rest.take 10
    let after := rest.drop 10
    if asin.length = 10 && asin.all isAsinChar
        && (match after with
            | [] => true
            | c :: _ => c = term) then
      some (String.mk asin)
    else none
  else none

/-- Leftmost match of one ASIN pattern in `s` (the semantics of
`re.search` for the patterns of `_extract_asin`). -/
def scanAsin (pref : List Char) (term : Char) : List Char → Option String
  | [] => none
  | c :: rest =>
    match matchAsinAt pref term (c :: rest) with
    | some a => some a
    | none => scanAsin pref term rest

/-- The pattern family of `_extract_asin`: prefix and terminator of each of
the five regexes, in the order the source tries them. -/
def asinPatterns : List (String × Char) :=
  [("/dp/", '/'), ("/gp/product/", '/'), ("/product/", '/'),
   ("/ASIN/", '/'), ("asin=", '&')]

/-- `AmazonPriceTracker._extract_asin`. -/
def extractAsin (url : String) : Option String :=
  asinPatterns.findSome? (fun pt => scanAsin pt.1.data pt.2 url.data)

/-- `AmazonPriceTracker.normalize_url`, restricted to what happens without a
network: short-link hosts (`amzn.in`/`amzn.com`) require a network redirect to
resolve and are modelled by the code's no-network fallback (the original URL);
otherwise the URL is rewritten to `https://www.amazon.in/dp/<ASIN>` when an
ASIN can be extracted, and returned unchanged when not. -/
def normalizeUrl (url : String) : String :=
  if strContains url "amzn.in" || strContains url "amzn.com" then url
  else
    match extractAsin url with
    | some a => "https://www.amazon.in/dp/" ++ a
    | none => url


/-!
## Bot-challenge classification
(`src/trackers/amazon_tracker.py`, `AmazonPriceTracker._check_for_captcha`)

A fetched page is modelled by the observations `_check_for_captcha` makes of
the response text and the parsed soup.
-/

/-- The apostrophe as a one-character string (see `apos`). -/
def aposS : String := String.mk [apos]

/-- `captcha_indicators` from `_check_for_captcha`, in source order. -/
def captchaIndicators : List String :=
  ["enter the characters you see below",
   "type the characters you see in this image",
   "robot check",
   "captcha",
   "bot check",
   "suspicious activity",
   "verify you" ++ aposS ++ "re a human",
   "verify your identity",
   "unusual activity",
   "sorry, we just need to make sure",
   "to discuss automated access",
   "please solve this puzzle",
   "automated queries",
   "important message",
   "we" ++ aposS ++ "ve detected unusual activity",
   "please wait"]

/-- Blocking-page words looked for in the page title. -/
def titleBlockIndicators : List String :=
  ["robot", "captcha", "verify", "blocked", "sorry"]

/-- Does the (lower-cased) text contain any challenge indicator? -/
def containsAnyIndicator (s : String) : Bool :=
  captchaIndicators.any (fun ind => strContains s ind)

/-- Observations `_check_for_captcha` makes of one fetched page. -/
structure FetchedPage where
  /-- The raw `response.text`. -/
  responseText : String
  /-- The strings of the DOM, searched by
  `soup.find_all(string=re.compile(..., IGNORECASE))`. -/
  domStrings : List String
  /-- A `form` with id `captcha-form` or a `validateCaptcha`/`verify` action. -/
  hasCaptchaForm : Bool
  /-- An `img` whose `src` matches `captcha|Captcha`. -/
  hasCaptchaImg : Bool
  /-- The text of the `title` tag, when one exists. -/
  titleText : Option String
  /-- A `meta http-equiv=refresh` tag. -/
  hasMetaRefresh : Bool
  /-- A `span` with id `productTitle`. -/
  hasProductTitleSpan : Bool
  /-- A `div` with id `buyBox`. -/
  hasBuyBoxDiv : Bool

/-- `AmazonPriceTracker._check_for_captcha`. -/
def check_for_captcha (p : FetchedPage) : Bool :=
  if containsAnyIndicator (lowerStr p.responseText) then true
  else if p.domStrings.any (fun s => containsAnyIndicator (lowerStr s)) then true
  else if p.hasCaptchaForm then true
  else if p.hasCaptchaImg then true
  else if (match p.titleText with
           | some t => titleBlockIndicators.any (fun ind => strContains (lowerStr t) ind)
           | none => false) then true
  else if p.hasMetaRefresh then true
  else if p.responseText.length < 5000 then
    if !p.hasProductTitleSpan && !p.hasBuyBoxDiv then true else false
  else false

/-!
## Product-page identity verification
(`src/trackers/amazon_tracker.py`, `AmazonPriceTracker._verify_product_page`)
-/

/-- The "not found" phrases checked against the page text. -/
def notFoundIndicators : List String :=
  ["page not found",
   "product not found",
   "we couldn" ++ aposS ++ "t find that page",
   "looking for something?",
   "sorry, we just need to make sure you" ++ aposS ++ "re not a robot"]

/-- Observations `_verify_product_page` makes of one parsed page. -/
structure ProductSoup where
  /-- Any of the five search-page indicator elements
  (`#search`, `#searchTemplate`, `#s-result-count`, the search toolbar
  heading, `.s-search-results`). -/
  hasSearchIndicators : Bool
  /-- `soup.get_text()`. -/
  pageText : String
  /-- Any of the category indicator elements
  (`#departments`, `#leftNav`, `#refinements`). -/
  hasCategoryIndicators : Bool
  /-- The `div` with id `dp`. -/
  hasDpDiv : Bool
  /-- Any of the product indicator elements (`#dp`, `#prodDetails`,
  `#detail-bullets`, `#centerCol`, `#title_feature_div`). -/
  hasProductIndicators : Bool
  /-- The `data-asin` attribute values present in the DOM. -/
  dataAsins : List String
  /-- The strings of `script` tags. -/
  scriptStrings : List String
  /-- The texts of detail-section elements. -/
  detailSectionTexts : List String
  /-- The `href` of the canonical `link`, when present. -/
  canonicalHref : Option String

/-- Can any of the four identifier-location methods of
`_verify_product_page` find `expected` in the page? Each method only ever
records the expected identifier itself, so a found `page_asin` always equals
`expected_asin` and the final equality test is vacuously true. -/
def pageAsinFound (soup : ProductSoup) (expected : String) : Bool :=
  soup.dataAsins.contains expected
    || soup.scriptStrings.any (fun s => strContains s expected)
    || soup.detailSectionTexts.any (fun t => strContains t expected)
    || (match soup.canonicalHref with
        | some h => strContains h expected
        | none => false)

/-- `AmazonPriceTracker._verify_product_page`. -/
def verify_product_page (soup : ProductSoup) (url : String) : Bool :=
  match extractAsin url with
  | none => true
  | some expected =>
    if soup.hasSearchIndicators then false
    else if notFoundIndicators.any
        (fun ind => strContains (lowerStr soup.pageText) ind) then false
    else if soup.hasCategoryIndicators && !soup.hasDpDiv then false
    else if soup.hasProductIndicators then
      if pageAsinFound soup expected then true else true
    else true

/-!
## Extraction orchestration
(`src/trackers/amazon_tracker.py`, `AmazonPriceTracker.get_product_info`,
`_try_api_endpoint`; `src/tracker_manager.py`, `TrackerManager`)

In the source of `get_product_info`, the entire plain-HTTP request/retry loop
(`for attempt in range(self.max_retries)` with CAPTCHA checks and 5xx
handling) is commented out; the first live strategy is the Selenium browser
session, followed by the alternate API endpoints, and a final raise.
Timestamps (`last_updated`), the image URL, and the `store` tag carry no
logic and are not modelled.
-/

/-- The normalized result record produced by the extraction strategies
(the dict described in the `get_product_info` docstring). -/
structure ProductInfo where
  title : String
  price : ℚ
  in_stock : Bool
  url : String
  /-- The `coupon` key: absent (`none`) in every live extraction path. -/
  coupon : Option String := none
  /-- The `error` key of the manager-level fallback dict. -/
  error : Option String := none
  /-- The `bot_detected` key of the manager-level fallback dict. -/
  bot_detected : Bool := false
deriving DecidableEq, Repr

/-- Out-of-stock phrases checked by the Selenium stock loop. -/
def seleniumOosIndicator (t : String) : Bool :=
  strContains t "out of stock" || strContains t "unavailable"
    || strContains t "not in stock"

/-- The Selenium stock check: `in_stock = True` unless an availability span
contains an out-of-stock phrase; if the elements cannot be read at all
(`none`), the `except` clause keeps the optimistic default. -/
def seleniumInStock (availabilityTexts : Option (List String)) : Bool :=
  match availabilityTexts with
  | none => true
  | some ts => !(ts.any (fun t => seleniumOosIndicator (lowerStr t)))

/-- What the Selenium strategy observes: whether navigation and the body wait
succeed at all, and the outcomes of the title/price/availability extraction
cascades. -/
structure SeleniumPage where
  /-- Browser start + `driver.get` + body wait succeed (otherwise the whole
  strategy raises and the orchestrator falls through to the API endpoints). -/
  loads : Bool
  /-- First non-empty title produced by the selector cascade or the JS
  fallback, if any. -/
  titleFound : Option String
  /-- First positive price produced by the selector cascade or the JS
  fallback, if any. -/
  priceFound : Option ℚ
  /-- Texts of the `#availability span` elements; `none` when reading them
  raises. -/
  availabilityTexts : Option (List String)

/-- The Selenium section of `get_product_info`: on a successful page load it
always returns a result record (partial information allowed), with the
sentinels `"Unknown Product"` and `0.0` for missing title/price. -/
def seleniumResult (url : String) (pg : SeleniumPage) : Option ProductInfo :=
  if pg.loads then
    some { title := pg.titleFound.getD "Unknown Product",
           price := pg.priceFound.getD 0,
           in_stock := seleniumInStock pg.availabilityTexts,
           url := url }
  else none

/-- `AmazonPriceTracker._try_api_endpoint`, summarized by its outcome: `none`
when no endpoint yields a title, otherwise the extracted title and price
(price `0.0` when only the title was found). The result always reports
`in_stock = True` ("Assume in stock"). -/
def apiResult (url : String) (r : Option (String × ℚ)) : Option ProductInfo :=
  r.map (fun tp => { title := tp.1, price := tp.2, in_stock := true, url := url })

/-- The outcomes the two live strategies would produce for one URL. -/
structure FetchOracle where
  selenium : SeleniumPage
  api : Option (String × ℚ)

/-- The fetch strategies named by the specification. -/
inductive Strategy where
  | plainHTTP
  | browserAutomation
  | apiEndpoint
deriving DecidableEq, Repr

/-- The exhaustion message raised at the end of `get_product_info` (no prior
exception recorded, since the loop that recorded `last_exception` is
commented out). -/
def exhaustMsg : String := "Failed to get product info after exhausting all methods"

/-- `AmazonPriceTracker.get_product_info`: URL validation (raising
`ValueError` before any network access), URL normalization, then the Selenium
strategy, then the API endpoints, then a raised exhaustion error. -/
def amazonGetProductInfo (url : String) (o : FetchOracle) : Except String ProductInfo :=
  if !is_valid_url url then .error ("Invalid Amazon product URL: " ++ url)
  else
    let nurl := normalizeUrl url
    match seleniumResult nurl o.selenium with
    | some r => .ok r
    | none =>
      match apiResult nurl o.api with
      | some r => .ok r
      | none => .error exhaustMsg

/-- The strategies `get_product_info` actually executes, in execution order. -/
def attemptedStrategies (url : String) (o : FetchOracle) : List Strategy :=
  if !is_valid_url url then []
  else if (seleniumResult (normalizeUrl url) o.selenium).isSome then
    [.browserAutomation]
  else [.browserAutomation, .apiEndpoint]


/-!
## Manager pipeline
(`src/tracker_manager.py`, `TrackerManager.get_product_info` /
`check_price_drop`; `src/main.py`, `PriceTracker.check_price_and_coupon` /
`check_all_products`; `src/product_manager.py`, `ProductManager.update_product`)

The tracker-level fetch outcome is a parameter (`Except String ProductInfo`),
so the pipeline theorems cover both the Amazon tracker of this embedding and
any other error the fetch can raise.
-/

/-- Does the error text trigger the bot-detection branch of the manager
fallback (`'bot detection' in str(e).lower() or 'captcha' in str(e).lower()`)? -/
def errorMentionsBot (e : String) : Bool :=
  strContains (lowerStr e) "bot detection" || strContains (lowerStr e) "captcha"

/-- `TrackerManager.get_product_info`: validation, delegation to the tracker,
and on a tracker exception the fallback record (price `0`, `in_stock = False`,
error recorded, title taken from the stored product, decorated when bot
detection is suspected) — or a re-raise when no stored title exists. -/
def trackerGetProductInfo (p : Product) (fetch : Except String ProductInfo) :
    Except String ProductInfo :=
  if p.url = "" then .error "Invalid product or missing URL"
  else
    match fetch with
    | .ok info => .ok info
    | .error e =>
      match p.title with
      | some t =>
        if t = "" then .error e
        else
          .ok { title := if errorMentionsBot e then t ++ " (Tracking Blocked)" else t,
                price := 0,
                in_stock := false,
                url := p.url,
                error := some e,
                bot_detected := errorMentionsBot e }
      | none => .error e

/-- The record returned by `TrackerManager.check_price_drop`. In the
invalid-product early return the source dict omits the `coupon`, `title`,
`in_stock` and `url` keys; the fields below hold the values `.get` produces
for the only reader (`check_price_and_coupon`): `coupon = None`,
`title = product.title`. -/
structure DropResult where
  price_dropped : Bool
  current_price : Option ℚ
  previous_price : Option ℚ
  coupon : Option String
  title : Option String
  in_stock : Bool
  url : String
  error : Option String
deriving DecidableEq, Repr

/-- `TrackerManager.check_price_drop`: never raises; on any fetch error it
returns a record with `price_dropped = False`, `current_price = 0` and the
error string; on success the drop decision is
`current_price > 0 and target_price > 0 and current_price <= target_price`. -/
def check_price_drop (p : Product) (fetch : Except String ProductInfo) : DropResult :=
  if p.url = "" then
    { price_dropped := false, current_price := some 0,
      previous_price := p.current_price, coupon := none, title := p.title,
      in_stock := true, url := p.url,
      error := some "Invalid product or missing URL" }
  else
    match trackerGetProductInfo p fetch with
    | .ok info =>
      { price_dropped :=
          decide (0 < info.price) && decide (0 < p.target_price)
            && decide (info.price ≤ p.target_price),
        current_price := some info.price,
        previous_price := p.current_price,
        coupon := info.coupon,
        title := some info.title,
        in_stock := info.in_stock,
        url := info.url,
        error := none }
    | .error e =>
      { price_dropped := false, current_price := some 0,
        previous_price := p.current_price, coupon := none, title := p.title,
        in_stock := false, url := p.url, error := some e }

/-- The `updates` dict built by `PriceTracker.check_price_and_coupon`. -/
structure CycleUpdates where
  current_price : Option ℚ
  title : Option String
deriving DecidableEq, Repr

/-- The observable outcome of one `check_price_and_coupon` call: the updates
dict plus whether a price-drop / coupon notification was sent. -/
structure CycleOutcome where
  updates : CycleUpdates
  dropNotified : Bool
  couponNotified : Bool
deriving DecidableEq, Repr

/-- `PriceTracker.check_price_and_coupon` from `src/main.py`. -/
def check_price_and_coupon (p : Product) (fetch : Except String ProductInfo) :
    CycleOutcome :=
  let result := check_price_drop p fetch
  { updates := { current_price := result.current_price, title := result.title },
    dropNotified := result.price_dropped,
    couponNotified :=
      (match result.coupon with
       | some c => c ≠ "" && p.coupon ≠ some (.str c)
       | none => false)
        && !result.price_dropped }

/-- `ProductManager.update_product`, applied to the per-cycle updates: fields
whose value is `None` are skipped, everything else is assigned. The
`last_updated` wall-clock timestamp carries no logic and is not modelled. -/
def update_product (p : Product) (u : CycleUpdates) : Product :=
  let p1 := match u.current_price with
            | some q => { p with current_price := some q }
            | none => p
  match u.title with
  | some t => { p1 with title := some t }
  | none => p1

/-- One item of the polling pass in `PriceTracker.check_all_products`:
run `check_price_and_coupon`, and since the updates dict is always non-empty,
persist the non-`None` updates whenever the product has a (truthy) id.
Returns the stored product after the cycle plus the two notification flags. -/
def runCycle (p : Product) (fetch : Except String ProductInfo) :
    Product × Bool × Bool :=
  let out := check_price_and_coupon p fetch
  let p' := match p.id with
            | some i => if i = "" then p else update_product p out.updates
            | none => p
  (p', out.dropNotified, out.couponNotified)


/-!
## Concrete instances used by witnesses and counterexamples
-/

/-- A well-formed Amazon product URL. -/
def urlOK : String := "https://www.amazon.in/dp/B0ABC12345"

/-- A tracked product with a previously observed price of 30000 and target
28000 (the boundary scenario of the specification). -/
def pC1 : Product :=
  { url := urlOK, target_price := 28000, current_price := some 30000 }

/-- Extraction result with the new price exactly at the target. -/
def infoDrop : ProductInfo :=
  { title := "Gadget", price := 28000, in_stock := true, url := urlOK }

/-- Extraction result with the new price one above the target. -/
def infoNoDrop : ProductInfo :=
  { title := "Gadget", price := 28001, in_stock := true, url := urlOK }

/-- Extraction result with an unknown price (the 0 sentinel). -/
def infoUnknownPrice : ProductInfo :=
  { title := "Gadget", price := 0, in_stock := true, url := urlOK }

/-- A tracked product with stored title and observed price 25000. -/
def pWidget : Product :=
  { url := urlOK, target_price := 28000, title := some "Widget",
    current_price := some 25000, id := some "pid1" }

/-- Oracle for a run in which the browser fails to load the page and no API
endpoint yields a title: every live strategy is exhausted. -/
def oExhaust : FetchOracle :=
  { selenium := { loads := false, titleFound := none, priceFound := none,
                  availabilityTexts := none },
    api := none }

/-- Oracle for a run in which the browser strategy succeeds. -/
def oSuccess : FetchOracle :=
  { selenium := { loads := true, titleFound := some "Gadget",
                  priceFound := some 27999,
                  availabilityTexts := some ["In stock"] },
    api := none }

/-- A challenge page: challenge phrasing in the body even though a
price-shaped number appears elsewhere in the markup. -/
def pageChallenge : FetchedPage :=
  { responseText := "<html><body>Robot Check: enter the characters you see below <span>₹4,999.00</span></body></html>",
    domStrings := [], hasCaptchaForm := false, hasCaptchaImg := false,
    titleText := some "Amazon.in", hasMetaRefresh := false,
    hasProductTitleSpan := false, hasBuyBoxDiv := false }

/-- A page whose only challenge signal is a phrase in the DOM strings
(visible text), not in the raw body — as with entity-encoded markup, where
the decoded string matches an indicator while the raw response does not. -/
def pageDomChallenge : FetchedPage :=
  { responseText := "<html><body>Gadget page</body></html>",
    domStrings := ["Sorry, we just need to make sure this request is genuine"],
    hasCaptchaForm := false, hasCaptchaImg := false,
    titleText := some "Gadget", hasMetaRefresh := false,
    hasProductTitleSpan := false, hasBuyBoxDiv := false }

/-- A page whose only challenge signal is a blocking-pattern title. -/
def pageBlockedTitle : FetchedPage :=
  { responseText := "<html>x</html>", domStrings := [],
    hasCaptchaForm := false, hasCaptchaImg := false,
    titleText := some "Sorry! Something went wrong",
    hasMetaRefresh := false, hasProductTitleSpan := false,
    hasBuyBoxDiv := false }

/-- A short response that still carries the product-title marker element. -/
def pageShortProduct : FetchedPage :=
  { responseText := "<html><span id=productTitle>Gadget</span>4999</html>",
    domStrings := ["Gadget"], hasCaptchaForm := false, hasCaptchaImg := false,
    titleText := some "Gadget page", hasMetaRefresh := false,
    hasProductTitleSpan := true, hasBuyBoxDiv := false }

/-- A short response with no primary-product marker at all. -/
def pageShortBare : FetchedPage :=
  { responseText := "<html>nothing here</html>", domStrings := [],
    hasCaptchaForm := false, hasCaptchaImg := false, titleText := none,
    hasMetaRefresh := false, hasProductTitleSpan := false,
    hasBuyBoxDiv := false }

/-- A URL with no extractable canonical identifier. -/
def urlNoAsin : String := "https://www.amazon.in/foo"

/-- A product page on which the expected identifier cannot be located by any
of the four methods. -/
def soupUnverifiable : ProductSoup :=
  { hasSearchIndicators := false,
    pageText := "Gadget product page with details",
    hasCategoryIndicators := false, hasDpDiv := true,
    hasProductIndicators := true, dataAsins := ["OTHER00000"],
    scriptStrings := ["var x = 1;"], detailSectionTexts := ["some details"],
    canonicalHref := none }

/-- A search-results page. -/
def soupSearch : ProductSoup :=
  { hasSearchIndicators := true, pageText := "results",
    hasCategoryIndicators := false, hasDpDiv := false,
    hasProductIndicators := false, dataAsins := [], scriptStrings := [],
    detailSectionTexts := [], canonicalHref := none }

/-- A short-link URL whose path ends in the excluded `/cart` suffix. -/
def urlCart : String := "https://amzn.in/d/abc/cart"

/-- A URL on a domain outside the allow-list. -/
def urlForeign : String := "https://example.com/dp/B0ABC12345"

/-- An allow-listed domain without a product-shaped path. -/
def urlNoProd : String := "https://www.amazon.in/help"

/-- A product-shaped path ending in an excluded suffix. -/
def urlExcluded : String := "https://www.amazon.in/dp/B0ABC12345/cart"

/-- A loaded page whose availability region reads "Currently unavailable.". -/
def pgOos : SeleniumPage :=
  { loads := true, titleFound := some "Gadget", priceFound := some 100,
    availabilityTexts := some ["Currently unavailable."] }

/-- A loaded page whose stock elements cannot be read at all. -/
def pgUnreadable : SeleniumPage :=
  { loads := true, titleFound := none, priceFound := none,
    availabilityTexts := none }

/-- A fully populated well-formed product for the round-trip witness. -/
def prodRT : Product :=
  { url := urlOK, target_price := 28000, title := some "Widget",
    current_price := some 25000, coupon := some (.str "50 off"),
    coupon_info := none, final_price := some 24950, in_stock := some true,
    id := some "pid1", tag := some "gifts", store_type := .amazon,
    last_updated := some "2024-01-01T00:00:00" }

/-- Unknown fields appended to a serialized product. -/
def junkExtras : List (String × PValue) :=
  [("junk_field", .num 1), ("another_junk", .str "x")]

/-- A stored record in the legacy format: the coupon field holds a dict. -/
def legacyData : List (String × PValue) :=
  [("url", .str "u"), ("target_price", .num 5),
   ("coupon", .dictV [("value", "50")])]

/-- The product `legacyData` must load to. -/
def prodLegacy : Product :=
  { url := "u", target_price := 5, coupon := none,
    coupon_info := some [("value", "50")] }


/-!
## Shared helper lemmas
-/

lemma parseDecimalParts_all_dots (cs : List Char) (h : ∀ c ∈ cs, c = '.') :
    parseDecimalParts cs = none := by
  cases cs with
  | nil => rfl
  | cons c tl =>
    have hc : c = '.' := h c (List.mem_cons_self _ _)
    subst hc
    by_cases htl : tl.any (· = '.')
    · simp [parseDecimalParts, htl]
    · cases tl with
      | nil => rfl
      | cons d tl2 =>
        have hd : d = '.' := h d (by simp)
        subst hd
        simp at htl

lemma extract_price_no_digits (s : String) (h : ∀ c ∈ s.data, ¬ c.isDigit) :
    extract_price s = 0 := by
  by_cases hs : s = ""
  · simp [extract_price, hs]
  · have hall : ∀ c ∈ s.data.filter (fun c => c.isDigit || c = '.'), c = '.' := by
      intro c hc
      rcases List.mem_filter.mp hc with ⟨hmem, hcond⟩
      have hnd := h c hmem
      simp [hnd] at hcond
      exact hcond
    simp [extract_price, hs, parseDecimal, parseDecimalParts_all_dots _ hall]

lemma extract_price_nonneg (s : String) : 0 ≤ extract_price s := by
  unfold extract_price
  split
  · norm_num
  · unfold parseDecimal
    cases hp : parseDecimalParts (s.data.filter (fun c => c.isDigit || c = '.')) with
    | none => simp [hp]
    | some ms =>
      simp [hp]
      positivity

lemma bindE_eq_ok {α β : Type} {e : Except String α} {f : α → Except String β}
    {b : β} (h : bindE e f = .ok b) : ∃ a, e = .ok a ∧ f a = .ok b := by
  cases e with
  | ok a => exact ⟨a, rfl, h⟩
  | error msg => simp [bindE] at h

lemma decOptStr_enc (t : Option String) : decOptStr (some (encOptStr t)) = .ok t := by
  cases t <;> rfl

lemma decOptNum_enc (t : Option ℚ) : decOptNum (some (encOptNum t)) = .ok t := by
  cases t <;> rfl

lemma decOptBool_enc (t : Option Bool) : decOptBool (some (encOptBool t)) = .ok t := by
  cases t <;> rfl

lemma decOptDict_enc (t : Option (List (String × String))) :
    decOptDict (some (encCouponInfo t)) = .ok t := by
  cases t <;> rfl

lemma decStoreType_value (st : StoreType) :
    decStoreType (some (.str st.value)) = .ok st := by
  cases st <;> rfl

lemma decCoupon_enc (c : Option PValue) (h : c ≠ some .null) :
    decCoupon (some (encCoupon c)) = c := by
  match c with
  | none => rfl
  | some .null => exact absurd rfl h
  | some (.str s) => rfl
  | some (.num q) => rfl
  | some (.boolV b) => rfl
  | some (.dictV kv) => rfl

lemma encCoupon_ne_dict (c : Option PValue) (h : wellFormedProduct { url := "", target_price := 0, coupon := c }) :
    ∀ kv, encCoupon c ≠ .dictV kv := by
  intro kv
  unfold wellFormedProduct at h
  match c with
  | none => simp [encCoupon]
  | some (.str s) => simp [encCoupon]
  | some (.num q) => simp [encCoupon]
  | some (.boolV b) => simp [encCoupon]
  | some .null => simp at h
  | some (.dictV kv2) => simp at h

lemma lookup_setKey_self (d : List (String × PValue)) (k : String) (v : PValue) :
    lookup (setKey d k v) k = some v := by
  induction d with
  | nil => simp [setKey, lookup]
  | cons e rest ih =>
    obtain ⟨k1, v1⟩ := e
    by_cases hk : k1 = k
    · simp [setKey, hk, lookup]
    · simp [setKey, hk, lookup, ih]

lemma lookup_setKey_ne (d : List (String × PValue)) (kw k : String) (v : PValue)
    (h : kw ≠ k) : lookup (setKey d kw v) k = lookup d k := by
  induction d with
  | nil => simp [setKey, lookup, h]
  | cons e rest ih =>
    obtain ⟨k1, v1⟩ := e
    by_cases hk : k1 = kw
    · simp [setKey, hk, lookup, h]
    · simp [setKey, hk, lookup, ih]

lemma lookup_append_left (d1 d2 : List (String × PValue)) (k : String)
    (h : (lookup d1 k).isSome) : lookup (d1 ++ d2) k = lookup d1 k := by
  induction d1 with
  | nil => simp [lookup] at h
  | cons e rest ih =>
    obtain ⟨k1, v1⟩ := e
    by_cases hk : k1 = k
    · simp [lookup, hk]
    · simp [lookup, hk] at h ⊢
      exact ih h

lemma lookup_filter_valid (d : List (String × PValue)) (k : String)
    (hk : validKey k = true) :
    lookup (d.filter (fun e => validKey e.1)) k = lookup d k := by
  induction d with
  | nil => rfl
  | cons e rest ih =>
    obtain ⟨k1, v1⟩ := e
    by_cases he : k1 = k
    · subst he
      simp [List.filter_cons, hk, lookup]
    · cases hc : validKey k1 with
      | true => simp [List.filter_cons, hc, lookup, he, ih]
      | false => simp [List.filter_cons, hc, lookup, he, ih]

lemma lookup_toDict_coupon (p : Product) :
    lookup (toDict p) "coupon" = some (encCoupon p.coupon) := by
  simp [toDict, lookup]

lemma migrateCoupon_no_dict (data : List (String × PValue))
    (h : ∀ kv, lookup data "coupon" ≠ some (.dictV kv)) :
    migrateCoupon data = data := by
  unfold migrateCoupon
  cases hl : lookup data "coupon" with
  | none => rfl
  | some v =>
    cases v with
    | dictV kv => exact absurd hl (h kv)
    | str s => rfl
    | num q => rfl
    | boolV b => rfl
    | null => rfl

lemma migrateCoupon_toDict (p : Product) (h : wellFormedProduct p) :
    migrateCoupon (toDict p) = toDict p := by
  apply migrateCoupon_no_dict
  intro kv hl
  rw [lookup_toDict_coupon] at hl
  have := encCoupon_ne_dict p.coupon (by unfold wellFormedProduct at h ⊢; exact h) kv
  exact this (by injection hl)

lemma lookup_migrate_coupon_not_dict (data : List (String × PValue)) :
    ∀ kv, lookup (migrateCoupon data) "coupon" ≠ some (.dictV kv) := by
  intro kv
  unfold migrateCoupon
  cases hl : lookup data "coupon" with
  | none => simp [hl]
  | some v =>
    cases v with
    | dictV kv2 => simp [lookup_setKey_self]
    | str s => simp [hl]
    | num q => simp [hl]
    | boolV b => simp [hl]
    | null => simp [hl]

lemma filter_valid_toDict (p : Product) :
    (toDict p).filter (fun e => validKey e.1) = toDict p := by
  have h1 : validKey "url" = true := rfl
  have h2 : validKey "target_price" = true := rfl
  have h3 : validKey "title" = true := rfl
  have h4 : validKey "current_price" = true := rfl
  have h5 : validKey "coupon" = true := rfl
  have h6 : validKey "coupon_info" = true := rfl
  have h7 : validKey "final_price" = true := rfl
  have h8 : validKey "in_stock" = true := rfl
  have h9 : validKey "id" = true := rfl
  have h10 : validKey "tag" = true := rfl
  have h11 : validKey "store_type" = true := rfl
  have h12 : validKey "last_updated" = true := rfl
  simp [toDict, List.filter_cons, h1, h2, h3, h4, h5, h6, h7, h8, h9, h10,
    h11, h12]

lemma dictToProduct_of_cleaned (data : List (String × PValue)) (p : Product)
    (h : wellFormedProduct p)
    (hm : (migrateCoupon data).filter (fun e => validKey e.1) = toDict p) :
    dictToProduct data = .ok p := by
  have hnn : p.coupon ≠ some .null := by
    unfold wellFormedProduct at h
    intro hc
    rw [hc] at h
    simp at h
  simp only [dictToProduct]
  rw [hm]
  have h1 : lookup (toDict p) "store_type" = some (.str p.store_type.value) := by
    simp [toDict, lookup]
  have h2 : lookup (toDict p) "url" = some (.str p.url) := by simp [toDict, lookup]
  have h3 : lookup (toDict p) "target_price" = some (.num p.target_price) := by
    simp [toDict, lookup]
  have h4 : lookup (toDict p) "title" = some (encOptStr p.title) := by
    simp [toDict, lookup]
  have h5 : lookup (toDict p) "current_price" = some (encOptNum p.current_price) := by
    simp [toDict, lookup]
  have h6 : lookup (toDict p) "coupon_info" = some (encCouponInfo p.coupon_info) := by
    simp [toDict, lookup]
  have h7 : lookup (toDict p) "final_price" = some (encOptNum p.final_price) := by
    simp [toDict, lookup]
  have h8 : lookup (toDict p) "in_stock" = some (encOptBool p.in_stock) := by
    simp [toDict, lookup]
  have h9 : lookup (toDict p) "id" = some (encOptStr p.id) := by simp [toDict, lookup]
  have h10 : lookup (toDict p) "tag" = some (encOptStr p.tag) := by
    simp [toDict, lookup]
  have h11 : lookup (toDict p) "last_updated" = some (encOptStr p.last_updated) := by
    simp [toDict, lookup]
  rw [h1, h2, h3, h4, h5, h6, h7, h8, h9, h10, h11, lookup_toDict_coupon]
  rw [decStoreType_value, decOptStr_enc, decOptNum_enc, decOptDict_enc,
    decOptNum_enc, decOptBool_enc, decOptStr_enc, decOptStr_enc, decOptStr_enc,
    decCoupon_enc _ hnn]
  rfl

lemma dictToProduct_ok_fields {data : List (String × PValue)} {q : Product}
    (h : dictToProduct data = .ok q) :
    q.coupon =
      decCoupon (lookup ((migrateCoupon data).filter (fun e => validKey e.1)) "coupon") ∧
    decOptDict (lookup ((migrateCoupon data).filter (fun e => validKey e.1)) "coupon_info") =
      .ok q.coupon_info := by
  simp only [dictToProduct] at h
  obtain ⟨st, _, h⟩ := bindE_eq_ok h
  obtain ⟨url, _, h⟩ := bindE_eq_ok h
  obtain ⟨tp, _, h⟩ := bindE_eq_ok h
  obtain ⟨title, _, h⟩ := bindE_eq_ok h
  obtain ⟨cp, _, h⟩ := bindE_eq_ok h
  obtain ⟨ci, hci, h⟩ := bindE_eq_ok h
  obtain ⟨fp, _, h⟩ := bindE_eq_ok h
  obtain ⟨ins, _, h⟩ := bindE_eq_ok h
  obtain ⟨idv, _, h⟩ := bindE_eq_ok h
  obtain ⟨tag, _, h⟩ := bindE_eq_ok h
  obtain ⟨lu, _, h⟩ := bindE_eq_ok h
  injection h with h
  subst h
  exact ⟨rfl, hci⟩


/-!
## Claim theorems
-/

/-- C1: for every tracked item and every new extraction result, the
price-drop decision of `TrackerManager.check_price_drop` is true exactly when
`currentPrice > 0` and `targetPrice > 0` and `currentPrice <= targetPrice`;
in particular the threshold is inclusive and a current price of 0 (the
unknown sentinel) never triggers a drop. -/
theorem C1_price_drop_decision (p : Product) (info : ProductInfo)
    (h : p.url ≠ "") :
    ((check_price_drop p (.ok info)).price_dropped = true ↔
      (0 < info.price ∧ 0 < p.target_price ∧ info.price ≤ p.target_price)) := by
  simp [check_price_drop, trackerGetProductInfo, h]
  exact and_assoc

/-- C1 witness: previousPrice 30000, targetPrice 28000 — a new price of
exactly 28000 triggers (inclusive threshold), 28001 does not, 0 does not. -/
theorem C1_price_drop_decision_witness :
    pC1.url ≠ "" ∧
    (check_price_drop pC1 (.ok infoDrop)).price_dropped = true ∧
    (check_price_drop pC1 (.ok infoNoDrop)).price_dropped = false ∧
    (check_price_drop pC1 (.ok infoUnknownPrice)).price_dropped = false := by
  have hu : pC1.url ≠ "" := by decide
  refine ⟨hu, ?_, ?_, ?_⟩
  · exact (C1_price_drop_decision pC1 infoDrop hu).mpr (by norm_num [pC1, infoDrop])
  · refine Bool.eq_false_iff.mpr ?_
    intro ht
    have hc := (C1_price_drop_decision pC1 infoNoDrop hu).mp ht
    norm_num [pC1, infoNoDrop] at hc
  · refine Bool.eq_false_iff.mpr ?_
    intro ht
    have hc := (C1_price_drop_decision pC1 infoUnknownPrice hu).mp ht
    norm_num [pC1, infoUnknownPrice] at hc

/-- C2 counterexample: a product with a previously observed price of 25000
goes through a cycle whose extraction fails with the exhaustion error, and
the stored observed price afterwards is 0, not 25000 — the failed cycle does
overwrite the previously known price (via the `current_price: 0` of the
failure record, which `update_product` only skips when the value is `None`). -/
theorem C2_failed_cycle_counterexample :
    pWidget.current_price = some 25000 ∧
    (runCycle pWidget (.error exhaustMsg)).1.current_price = some 0 ∧
    (0 : ℚ) ≠ 25000 := by
  refine ⟨rfl, ?_, by norm_num⟩
  rfl

/-- C2 amended: a failed extraction cycle produces no price-drop notification
and no coupon notification, and `None`-valued updates are never written, but
the stored observed price is overwritten with the 0 sentinel (for any product
with a truthy id); other fields such as the target price are untouched. -/
theorem C2_failed_cycle_amended (p : Product) (e : String) (h : p.url ≠ "") :
    (runCycle p (.error e)).2.1 = false ∧
    (runCycle p (.error e)).2.2 = false ∧
    (∀ i, p.id = some i → i ≠ "" →
      (runCycle p (.error e)).1.current_price = some 0) ∧
    (runCycle p (.error e)).1.target_price = p.target_price := by
  have hmain : (check_price_drop p (Except.error e)).price_dropped = false ∧
      (check_price_drop p (Except.error e)).coupon = none ∧
      (check_price_drop p (Except.error e)).current_price = some 0 := by
    unfold check_price_drop trackerGetProductInfo
    rw [if_neg h, if_neg h]
    cases p.title with
    | none => simp
    | some t =>
      by_cases ht : t = ""
      · simp [ht]
      · simp [ht]
  refine ⟨?_, ?_, ?_, ?_⟩
  · simp [runCycle, check_price_and_coupon, hmain.1]
  · simp [runCycle, check_price_and_coupon, hmain.2.1]
  · intro i hi hine
    simp only [runCycle, check_price_and_coupon, hi, hine, update_product,
      hmain.2.2]
    simp [hine]
    cases (check_price_drop p (Except.error e)).title <;> simp
  · cases hid : p.id with
    | none => simp [runCycle, check_price_and_coupon, hid]
    | some i =>
      by_cases hie : i = ""
      · simp [runCycle, check_price_and_coupon, hid, hie]
      · simp [runCycle, check_price_and_coupon, hid, hie, update_product]
        cases (check_price_drop p (Except.error e)).current_price <;>
          cases (check_price_drop p (Except.error e)).title <;> simp

/-- C2 amended witness at a concrete product and error. -/
theorem C2_failed_cycle_amended_witness :
    pWidget.url ≠ "" ∧ pWidget.id = some "pid1" ∧ ("pid1" : String) ≠ "" ∧
    (runCycle pWidget (.error "boom")).2.1 = false ∧
    (runCycle pWidget (.error "boom")).2.2 = false ∧
    (runCycle pWidget (.error "boom")).1.current_price = some 0 := by
  have hu : pWidget.url ≠ "" := by decide
  have t := C2_failed_cycle_amended pWidget "boom" hu
  exact ⟨hu, rfl, by decide, t.1, t.2.1, t.2.2.1 "pid1" rfl (by decide)⟩

/-- C3 counterexample: when every strategy is exhausted, the tracker-level
extraction operation raises (returns `.error`, not a structured result), and
the data-level failure record the manager produces carries the previously
stored title ("Widget"), not the "Unknown Product" sentinel (and no success
flag exists on it). -/
theorem C3_exhaustion_counterexample :
    amazonGetProductInfo urlOK oExhaust = .error exhaustMsg ∧
    trackerGetProductInfo pWidget (amazonGetProductInfo urlOK oExhaust) =
      .ok { title := "Widget", price := 0, in_stock := false, url := urlOK,
            coupon := none, error := some exhaustMsg, bot_detected := false } ∧
    ("Widget" : String) ≠ "Unknown Product" := by
  refine ⟨rfl, ?_, by decide⟩
  rfl

/-- C3 amended: on exhaustion `AmazonPriceTracker.get_product_info` raises
the exhaustion error; `TrackerManager.get_product_info` converts it into a
structured failure record (price 0, out of stock, error string populated,
title = the stored product title) whenever a stored title exists; and
`check_price_drop` absorbs every error into a plain result record with
`price_dropped = false` and `current_price = 0`, so exhaustion never crosses
the polling-loop boundary as an exception. -/
theorem C3_exhaustion_amended (url : String) (o : FetchOracle) (p : Product)
    (t : String) (hu : is_valid_url url = true) (hl : o.selenium.loads = false)
    (ha : o.api = none) (hp : p.url ≠ "") (ht : p.title = some t)
    (ht2 : t ≠ "") :
    amazonGetProductInfo url o = .error exhaustMsg ∧
    errorMentionsBot exhaustMsg = false ∧
    trackerGetProductInfo p (.error exhaustMsg) =
      .ok { title := t, price := 0, in_stock := false, url := p.url,
            coupon := none, error := some exhaustMsg, bot_detected := false } ∧
    (check_price_drop p (.error exhaustMsg)).price_dropped = false ∧
    (check_price_drop p (.error exhaustMsg)).current_price = some 0 := by
  have hbot : errorMentionsBot exhaustMsg = false := by decide
  refine ⟨?_, hbot, ?_, ?_, ?_⟩
  · simp [amazonGetProductInfo, hu, seleniumResult, hl, apiResult, ha]
  · simp [trackerGetProductInfo, hp, ht, ht2, hbot]
  · simp [check_price_drop, trackerGetProductInfo, hp, ht, ht2, hbot]
  · simp [check_price_drop, trackerGetProductInfo, hp, ht, ht2, hbot]

/-- C3 amended witness at a concrete URL, oracle and product. -/
theorem C3_exhaustion_amended_witness :
    (is_valid_url urlOK = true ∧ oExhaust.selenium.loads = false ∧
     oExhaust.api = none ∧ pWidget.url ≠ "" ∧ pWidget.title = some "Widget" ∧
     ("Widget" : String) ≠ "") ∧
    amazonGetProductInfo urlOK oExhaust = .error exhaustMsg ∧
    (check_price_drop pWidget (.error exhaustMsg)).price_dropped = false := by
  have hu : is_valid_url urlOK = true := by decide
  have hp : pWidget.url ≠ "" := by decide
  have t := C3_exhaustion_amended urlOK oExhaust pWidget "Widget" hu rfl rfl hp
    rfl (by decide)
  exact ⟨⟨hu, rfl, rfl, hp, rfl, by decide⟩, t.1, t.2.2.2.1⟩

/-- C4 counterexample: the plain-HTTP fetch loop of
`AmazonPriceTracker.get_product_info` is commented out in the source, so no
plain-HTTP strategy is ever attempted before browser automation: the first
(and on success the only) executed strategy is the Selenium browser, followed
only by the alternate API endpoints — the claimed
`[BOT_CHALLENGE, 500, 500, success]` escalation with per-strategy 5xx retries
cannot occur. -/
theorem C4_strategy_order_counterexample :
    attemptedStrategies urlOK oSuccess = [Strategy.browserAutomation] ∧
    attemptedStrategies urlOK oExhaust =
      [Strategy.browserAutomation, Strategy.apiEndpoint] ∧
    Strategy.plainHTTP ∉ attemptedStrategies urlOK oSuccess ∧
    Strategy.plainHTTP ∉ attemptedStrategies urlOK oExhaust := by
  refine ⟨by decide, by decide, by decide, by decide⟩

/-- C4 amended: for every valid URL the orchestrator executes the fixed
strategy order [browser automation, API endpoints]: a successful browser
result is returned without attempting the API endpoints, and only when the
browser strategy fails are the API endpoints attempted, whose failure yields
the exhaustion error. -/
theorem C4_strategy_order_amended (url : String) (o : FetchOracle)
    (hu : is_valid_url url = true) :
    (∀ r, seleniumResult (normalizeUrl url) o.selenium = some r →
      attemptedStrategies url o = [Strategy.browserAutomation] ∧
      amazonGetProductInfo url o = .ok r) ∧
    (seleniumResult (normalizeUrl url) o.selenium = none →
      attemptedStrategies url o =
        [Strategy.browserAutomation, Strategy.apiEndpoint] ∧
      amazonGetProductInfo url o =
        (match apiResult (normalizeUrl url) o.api with
         | some r => .ok r
         | none => .error exhaustMsg)) := by
  constructor
  · intro r hr
    simp [attemptedStrategies, amazonGetProductInfo, hu, hr]
  · intro hr
    simp [attemptedStrategies, amazonGetProductInfo, hu, hr]

/-- C4 amended witness: the successful browser run returns its result without
consulting the API endpoints. -/
theorem C4_strategy_order_amended_witness :
    is_valid_url urlOK = true ∧
    attemptedStrategies urlOK oSuccess = [Strategy.browserAutomation] ∧
    amazonGetProductInfo urlOK oSuccess =
      .ok { title := "Gadget", price := 27999, in_stock := true,
            url := normalizeUrl urlOK } := by
  have hu : is_valid_url urlOK = true := by decide
  have t := (C4_strategy_order_amended urlOK oSuccess hu).1
    { title := "Gadget", price := 27999, in_stock := true,
      url := normalizeUrl urlOK } rfl
  exact ⟨hu, t.1, t.2⟩

/-- C5 counterexample: the numeric price parser turns "Rs. 999" into 0.999
(the abbreviation dot survives the character filter), not 999.0; and it
applies no sanity ceiling — a value far above the tens of millions is
accepted verbatim. -/
theorem C5_price_parser_counterexample :
    extract_price "Rs. 999" = 999/1000 ∧ (999/1000 : ℚ) ≠ 999 ∧
    extract_price "99999999999" = 99999999999 ∧
    (10 : ℚ) * 10 ^ 7 < 99999999999 := by
  refine ⟨?_, by norm_num, ?_, by norm_num⟩
  · have h : parseDecimalParts (['.', '9', '9', '9'] : List Char) =
        some (999, 3) := by decide
    simp [extract_price, parseDecimal, h]
    norm_num
  · have h : parseDecimalParts
        (['9', '9', '9', '9', '9', '9', '9', '9', '9', '9', '9'] : List Char) =
        some (99999999999, 0) := by decide
    simp [extract_price, parseDecimal, h]

/-- C5 amended: the parser keeps only digits and the decimal point and
returns the parsed value for "₹12,345.67" and "12345"; "Rs. 999" parses to
0.999 because the dot of the abbreviation is kept; strings with no digits
yield the 0.0 failure sentinel rather than crashing; the result is never
negative; and no upper sanity ceiling is applied (arbitrarily large values
are accepted). -/
theorem C5_price_parser_amended :
    extract_price "₹12,345.67" = 1234567/100 ∧
    extract_price "12345" = 12345 ∧
    extract_price "Rs. 999" = 999/1000 ∧
    extract_price "" = 0 ∧
    (∀ s : String, (∀ c ∈ s.data, ¬ c.isDigit) → extract_price s = 0) ∧
    (∀ s : String, 0 ≤ extract_price s) ∧
    extract_price "99999999999" = 99999999999 := by
  refine ⟨?_, ?_, ?_, rfl, extract_price_no_digits, extract_price_nonneg, ?_⟩
  · have h : parseDecimalParts
        (['1', '2', '3', '4', '5', '.', '6', '7'] : List Char) =
        some (1234567, 2) := by decide
    simp [extract_price, parseDecimal, h]
    norm_num
  · have h : parseDecimalParts (['1', '2', '3', '4', '5'] : List Char) =
        some (12345, 0) := by decide
    simp [extract_price, parseDecimal, h]
  · have h : parseDecimalParts (['.', '9', '9', '9'] : List Char) =
        some (999, 3) := by decide
    simp [extract_price, parseDecimal, h]
    norm_num
  · have h : parseDecimalParts
        (['9', '9', '9', '9', '9', '9', '9', '9', '9', '9', '9'] : List Char) =
        some (99999999999, 0) := by decide
    simp [extract_price, parseDecimal, h]

/-- C5 amended witness: a digit-free string parses to the failure sentinel. -/
theorem C5_price_parser_amended_witness :
    (∀ c ∈ ("abc" : String).data, ¬ c.isDigit) ∧ extract_price "abc" = 0 :=
  ⟨by decide, C5_price_parser_amended.2.2.2.2.1 "abc" (by decide)⟩


/-- C6: the page classifier returns true for every page whose body text
contains a known challenge phrase, for every page whose visible DOM strings
contain one (the `soup.find_all(string=...)` check), and for every page
whose title matches a blocking pattern (all regardless of any price-shaped
number in the markup, which the classifier never inspects); and when none of
the phrase/form/image/title/meta-refresh triggers fire, a short response
classifies as a challenge exactly when the DOM lacks both primary-product
markers (product-title span and buy-box container). -/
theorem C6_captcha_classifier (p : FetchedPage) :
    (containsAnyIndicator (lowerStr p.responseText) = true →
      check_for_captcha p = true) ∧
    (p.domStrings.any (fun s => containsAnyIndicator (lowerStr s)) = true →
      check_for_captcha p = true) ∧
    (∀ t, p.titleText = some t →
      titleBlockIndicators.any (fun ind => strContains (lowerStr t) ind) = true →
      check_for_captcha p = true) ∧
    (containsAnyIndicator (lowerStr p.responseText) = false →
     p.domStrings.any (fun s => containsAnyIndicator (lowerStr s)) = false →
     p.hasCaptchaForm = false →
     p.hasCaptchaImg = false →
     (match p.titleText with
      | some t => titleBlockIndicators.any (fun ind => strContains (lowerStr t) ind)
      | none => false) = false →
     p.hasMetaRefresh = false →
     (check_for_captcha p = true ↔
       (p.responseText.length < 5000 ∧ p.hasProductTitleSpan = false ∧
        p.hasBuyBoxDiv = false))) := by
  refine ⟨?_, ?_, ?_, ?_⟩
  · intro hb
    simp [check_for_captcha, hb]
  · intro hd
    unfold check_for_captcha
    cases hb : containsAnyIndicator (lowerStr p.responseText) <;> simp [hb, hd]
  · intro t ht htitle
    unfold check_for_captcha
    rw [ht]
    simp [htitle]
  · intro h1 h2 h3 h4 h5 h6
    unfold check_for_captcha
    rw [h1, h2, h3, h4, h5, h6]
    by_cases hlen : p.responseText.length < 5000
    · by_cases hps : p.hasProductTitleSpan = true
      · simp [hlen, hps]
      · by_cases hbb : p.hasBuyBoxDiv = true
        · simp [hlen, hps, hbb]
        · simp [hlen, hps, hbb]
    · simp [hlen]

/-- C6 witness: a body with challenge phrasing (and a price in the markup)
classifies as a challenge; a page whose only challenge phrase sits in the
visible DOM strings classifies as a challenge; a blocking title alone
classifies as a challenge; a short page that still has the product-title
span does not; a short bare page does. -/
theorem C6_captcha_classifier_witness :
    (containsAnyIndicator (lowerStr pageChallenge.responseText) = true ∧
     check_for_captcha pageChallenge = true) ∧
    (containsAnyIndicator (lowerStr pageDomChallenge.responseText) = false ∧
     pageDomChallenge.domStrings.any
       (fun s => containsAnyIndicator (lowerStr s)) = true ∧
     check_for_captcha pageDomChallenge = true) ∧
    (pageBlockedTitle.titleText = some "Sorry! Something went wrong" ∧
     check_for_captcha pageBlockedTitle = true) ∧
    check_for_captcha pageShortProduct = false ∧
    check_for_captcha pageShortBare = true := by
  refine ⟨⟨by decide, ?_⟩, ⟨by decide, by decide, ?_⟩, ⟨rfl, ?_⟩, ?_, ?_⟩
  · exact (C6_captcha_classifier pageChallenge).1 (by decide)
  · exact (C6_captcha_classifier pageDomChallenge).2.1 (by decide)
  · exact (C6_captcha_classifier pageBlockedTitle).2.2.1
      "Sorry! Something went wrong" rfl (by decide)
  · refine Bool.eq_false_iff.mpr ?_
    intro ht
    have hc := ((C6_captcha_classifier pageShortProduct).2.2.2 (by decide)
      (by decide) rfl rfl (by decide) rfl).mp ht
    exact absurd hc.2.1 (by decide)
  · exact ((C6_captcha_classifier pageShortBare).2.2.2 (by decide) (by decide)
      rfl rfl (by decide) rfl).mpr ⟨by decide, rfl, rfl⟩

/-- C7: page-identity verification is advisory: it returns true whenever no
canonical identifier can be extracted from the URL, and whenever the
primary-product container is present but the expected identifier cannot be
located by any of the four methods (and no wrong-page branch fired); it
returns false only for pages with search-result markers, not-found text, or
category-listing markers without the `dp` primary-product container. -/
theorem C7_verification_advisory (soup : ProductSoup) (url : String) :
    (extractAsin url = none → verify_product_page soup url = true) ∧
    (∀ a, extractAsin url = some a →
      soup.hasSearchIndicators = false →
      notFoundIndicators.any
        (fun ind => strContains (lowerStr soup.pageText) ind) = false →
      (soup.hasCategoryIndicators && !soup.hasDpDiv) = false →
      soup.hasProductIndicators = true →
      pageAsinFound soup a = false →
      verify_product_page soup url = true) ∧
    (verify_product_page soup url = false →
      soup.hasSearchIndicators = true ∨
      notFoundIndicators.any
        (fun ind => strContains (lowerStr soup.pageText) ind) = true ∨
      (soup.hasCategoryIndicators = true ∧ soup.hasDpDiv = false)) := by
  refine ⟨?_, ?_, ?_⟩
  · intro ha
    simp [verify_product_page, ha]
  · intro a ha h1 h2 h3 h4 h5
    simp [verify_product_page, ha, h1, h2, h3, h4, h5]
  · intro hv
    unfold verify_product_page at hv
    cases ha : extractAsin url with
    | none => rw [ha] at hv; simp at hv
    | some a =>
      rw [ha] at hv
      by_cases h1 : soup.hasSearchIndicators = true
      · exact Or.inl h1
      · by_cases h2 : notFoundIndicators.any
            (fun ind => strContains (lowerStr soup.pageText) ind) = true
        · exact Or.inr (Or.inl h2)
        · by_cases h3 : (soup.hasCategoryIndicators && !soup.hasDpDiv) = true
          · refine Or.inr (Or.inr ?_)
            have hand := Bool.and_eq_true_iff.mp h3
            exact ⟨hand.1, by simpa using hand.2⟩
          · exfalso
            simp [h1, h2, h3] at hv

/-- C7 witness: a URL without identifier verifies; a product page on which
the identifier cannot be located verifies (with a warning); a search page is
rejected and falls into one of the three wrong-page categories. -/
theorem C7_verification_advisory_witness :
    (extractAsin urlNoAsin = none ∧
     verify_product_page soupUnverifiable urlNoAsin = true) ∧
    verify_product_page soupUnverifiable urlOK = true ∧
    (verify_product_page soupSearch urlOK = false ∧
     (soupSearch.hasSearchIndicators = true ∨
      notFoundIndicators.any
        (fun ind => strContains (lowerStr soupSearch.pageText) ind) = true ∨
      (soupSearch.hasCategoryIndicators = true ∧
       soupSearch.hasDpDiv = false))) := by
  refine ⟨⟨by decide, ?_⟩, ?_, ⟨?_, ?_⟩⟩
  · exact (C7_verification_advisory soupUnverifiable urlNoAsin).1 (by decide)
  · exact (C7_verification_advisory soupUnverifiable urlOK).2.1 "B0ABC12345"
      (by decide) rfl (by decide) rfl rfl (by decide)
  · decide
  · exact (C7_verification_advisory soupSearch urlOK).2.2 (by decide)

/-- C8 counterexample: a URL on the short-link host whose path ends in the
excluded `/cart` suffix is accepted by `is_valid_url` — the short-URL branch
returns before the exclusion check runs — so the exclusion rules do not hold
for every URL. -/
theorem C8_url_validation_counterexample :
    is_valid_url urlCart = true ∧
    strEndsWith (lowerStr (pathOf urlCart)) "/cart" = true := by
  exact ⟨by decide, by decide⟩

/-- C8 amended: a URL outside the domain allow-list, or (outside the
short-link fast path) without a product-shaped path, or (outside the
short-link fast path) ending in an excluded suffix, is rejected by
`is_valid_url`; and for every rejected URL `get_product_info` raises
`ValueError` synchronously with no strategy attempted. On the short-link
hosts `amzn.in`/`amzn.com` a path starting with `/d/`, `/dp/` or `/gp/` is
accepted without the exclusion check. -/
theorem C8_url_validation_amended (url : String) (o : FetchOracle) :
    (domainAllowed (lowerStr (netlocOf url)) = false →
      is_valid_url url = false) ∧
    (shortUrlAccepted (lowerStr (netlocOf url)) (pathOf url) = false →
      isProductPath (lowerStr (pathOf url)) = false →
      is_valid_url url = false) ∧
    (shortUrlAccepted (lowerStr (netlocOf url)) (pathOf url) = false →
      isExcludedPath (lowerStr (pathOf url)) = true →
      is_valid_url url = false) ∧
    (is_valid_url url = false →
      amazonGetProductInfo url o =
        .error ("Invalid Amazon product URL: " ++ url) ∧
      attemptedStrategies url o = []) := by
  refine ⟨?_, ?_, ?_, ?_⟩
  · intro hd
    by_cases hu : url = "" <;> simp [is_valid_url, hu, hd]
  · intro hs hp
    by_cases hu : url = "" <;> simp [is_valid_url, hu, hs, hp]
  · intro hs he
    by_cases hu : url = "" <;> simp [is_valid_url, hu, hs, he]
  · intro hv
    constructor
    · simp [amazonGetProductInfo, hv]
    · simp [attemptedStrategies, hv]

/-- C8 amended witness: a foreign domain, a non-product path, and an
excluded-suffix path are all rejected, and the rejected URL fails fast with
no strategy attempted. -/
theorem C8_url_validation_amended_witness :
    (domainAllowed (lowerStr (netlocOf urlForeign)) = false ∧
     is_valid_url urlForeign = false) ∧
    is_valid_url urlNoProd = false ∧
    is_valid_url urlExcluded = false ∧
    (amazonGetProductInfo urlForeign oExhaust =
       .error ("Invalid Amazon product URL: " ++ urlForeign) ∧
     attemptedStrategies urlForeign oExhaust = []) := by
  have hd : domainAllowed (lowerStr (netlocOf urlForeign)) = false := by decide
  have h1 := (C8_url_validation_amended urlForeign oExhaust).1 hd
  refine ⟨⟨hd, h1⟩, ?_, ?_, ?_⟩
  · exact (C8_url_validation_amended urlNoProd oExhaust).2.1 (by decide) (by decide)
  · exact (C8_url_validation_amended urlExcluded oExhaust).2.2.1 (by decide) (by decide)
  · exact (C8_url_validation_amended urlForeign oExhaust).2.2.2 h1

/-- C9: the Selenium extraction reports `in_stock` from the availability
check whenever the page loaded; the check is the optimistic default — true
when the stock elements cannot be read at all, false exactly when some
availability text carries an explicit unavailable/out-of-stock phrase — and
the API-endpoint strategy always reports in stock. -/
theorem C9_stock_default (url : String) (pg : SeleniumPage) :
    (pg.loads = true →
      (seleniumResult url pg).map (fun i => i.in_stock) =
        some (seleniumInStock pg.availabilityTexts)) ∧
    (pg.availabilityTexts = none → seleniumInStock pg.availabilityTexts = true) ∧
    (∀ ts, pg.availabilityTexts = some ts →
      (seleniumInStock pg.availabilityTexts = false ↔
        ts.any (fun t => seleniumOosIndicator (lowerStr t)) = true)) ∧
    (∀ tp : String × ℚ,
      (apiResult url (some tp)).map (fun i => i.in_stock) = some true) := by
  refine ⟨?_, ?_, ?_, ?_⟩
  · intro hl
    simp [seleniumResult, hl]
  · intro ha
    simp [seleniumInStock, ha]
  · intro ts ha
    simp [seleniumInStock, ha]
  · intro tp
    simp [apiResult]

/-- C9 witness: a loaded page without any out-of-stock phrase reports in
stock; unreadable stock elements default to in stock; an explicit
"Currently unavailable." text reports out of stock; the API strategy reports
in stock. -/
theorem C9_stock_default_witness :
    (oSuccess.selenium.loads = true ∧
     (seleniumResult urlOK oSuccess.selenium).map (fun i => i.in_stock) =
       some true) ∧
    (pgUnreadable.availabilityTexts = none ∧
     seleniumInStock pgUnreadable.availabilityTexts = true) ∧
    (pgOos.availabilityTexts = some ["Currently unavailable."] ∧
     seleniumInStock pgOos.availabilityTexts = false) ∧
    (apiResult urlOK (some ("T", 5))).map (fun i => i.in_stock) = some true := by
  refine ⟨⟨rfl, ?_⟩, ⟨rfl, ?_⟩, ⟨rfl, ?_⟩, ?_⟩
  · have h := (C9_stock_default urlOK oSuccess.selenium).1 rfl
    rw [h]
    decide
  · exact (C9_stock_default urlOK pgUnreadable).2.1 rfl
  · exact ((C9_stock_default urlOK pgOos).2.2.1
      ["Currently unavailable."] rfl).mpr (by decide)
  · exact (C9_stock_default urlOK pgOos).2.2.2 ("T", 5)

/-- C10: stored product records round-trip — deserializing the serialized
form of a well-formed product yields the same product (the store-type enum
surviving the value-string conversion); unknown fields are dropped rather
than causing errors; a legacy dict-valued coupon is migrated into
`coupon_info` with `coupon` cleared; and a loaded product never carries a
dict in its coupon field. -/
theorem C10_product_roundtrip :
    (∀ p : Product, wellFormedProduct p → dictToProduct (toDict p) = .ok p) ∧
    (∀ (p : Product) (extras : List (String × PValue)), wellFormedProduct p →
      (∀ e ∈ extras, validKey e.1 = false) →
      dictToProduct (toDict p ++ extras) = .ok p) ∧
    (∀ (data : List (String × PValue)) (kv : List (String × String))
      (q : Product), lookup data "coupon" = some (.dictV kv) →
      (lookup data "coupon_info" = none ∨
        lookup data "coupon_info" = some .null) →
      dictToProduct data = .ok q → q.coupon = none ∧ q.coupon_info = some kv) ∧
    (∀ (data : List (String × PValue)) (q : Product),
      dictToProduct data = .ok q → ∀ kv, q.coupon ≠ some (.dictV kv)) := by
  refine ⟨?_, ?_, ?_, ?_⟩
  · intro p h
    exact dictToProduct_of_cleaned _ _ h
      (by rw [migrateCoupon_toDict p h, filter_valid_toDict])
  · intro p extras h hextra
    apply dictToProduct_of_cleaned _ _ h
    have hmig : migrateCoupon (toDict p ++ extras) = toDict p ++ extras := by
      apply migrateCoupon_no_dict
      intro kv hl
      rw [lookup_append_left _ _ _ (by simp [lookup_toDict_coupon])] at hl
      rw [lookup_toDict_coupon] at hl
      exact encCoupon_ne_dict p.coupon
        (by unfold wellFormedProduct at h ⊢; exact h) kv (by injection hl)
    rw [hmig, List.filter_append, filter_valid_toDict]
    have hnil : extras.filter (fun e => validKey e.1) = [] := by
      rw [List.filter_eq_nil_iff]
      intro a ha
      simp [hextra a ha]
    rw [hnil, List.append_nil]
  · intro data kv q hc hci h
    have hmig : migrateCoupon data =
        setKey (setKey data "coupon_info" (.dictV kv)) "coupon" .null := by
      unfold migrateCoupon
      rw [hc]
      rcases hci with hci | hci <;> rw [hci]
    obtain ⟨hq1, hq2⟩ := dictToProduct_ok_fields h
    have l1 : lookup ((migrateCoupon data).filter (fun e => validKey e.1))
        "coupon" = some .null := by
      rw [lookup_filter_valid _ "coupon" (by decide), hmig, lookup_setKey_self]
    have l2 : lookup ((migrateCoupon data).filter (fun e => validKey e.1))
        "coupon_info" = some (.dictV kv) := by
      rw [lookup_filter_valid _ "coupon_info" (by decide), hmig,
        lookup_setKey_ne _ _ _ _ (by decide), lookup_setKey_self]
    constructor
    · rw [hq1, l1]; rfl
    · rw [l2] at hq2
      simp [decOptDict] at hq2
      exact hq2.symm
  · intro data q h kv
    obtain ⟨hq1, _⟩ := dictToProduct_ok_fields h
    have hnd := lookup_migrate_coupon_not_dict data
    rw [lookup_filter_valid _ "coupon" (by decide)] at hq1
    cases hl : lookup (migrateCoupon data) "coupon" with
    | none => rw [hl] at hq1; simp [decCoupon] at hq1; simp [hq1]
    | some v =>
      rw [hl] at hq1
      cases v with
      | null => simp [decCoupon] at hq1; simp [hq1]
      | str s => simp [decCoupon] at hq1; simp [hq1]
      | num qq => simp [decCoupon] at hq1; simp [hq1]
      | boolV b => simp [decCoupon] at hq1; simp [hq1]
      | dictV kv2 => exact absurd hl (hnd kv2)

/-- C10 witness: a fully populated product round-trips, unknown fields are
dropped, and a legacy record with a dict-valued coupon loads with the dict
moved to `coupon_info` and `coupon` cleared. -/
theorem C10_product_roundtrip_witness :
    wellFormedProduct prodRT ∧
    dictToProduct (toDict prodRT) = .ok prodRT ∧
    (∀ e ∈ junkExtras, validKey e.1 = false) ∧
    dictToProduct (toDict prodRT ++ junkExtras) = .ok prodRT ∧
    lookup legacyData "coupon" = some (.dictV [("value", "50")]) ∧
    dictToProduct legacyData = .ok prodLegacy ∧
    prodLegacy.coupon = none ∧ prodLegacy.coupon_info = some [("value", "50")] := by
  have hwf : wellFormedProduct prodRT := by decide
  have hj : ∀ e ∈ junkExtras, validKey e.1 = false := by decide
  have hld : dictToProduct legacyData = .ok prodLegacy := by rfl
  have h3 := C10_product_roundtrip.2.2.1 legacyData [("value", "50")] prodLegacy
    rfl (Or.inl rfl) hld
  exact ⟨hwf, C10_product_roundtrip.1 prodRT hwf, hj,
    C10_product_roundtrip.2.1 prodRT junkExtras hwf hj, rfl, hld, h3.1, h3.2⟩

end AmazonTracker
